import Mathlib

/-!
Shallow embedding of the moss-agent capture service (src/main.rs and
src/system_info.rs) and proofs about its specified behaviour.

Conventions of the embedding:
* keys and buttons of the external `rdev` crate are modelled as numerals;
* wall-clock instants and the mouse-move throttle interval are rationals
  (seconds), with `Instant::duration_since` modelled as a saturating
  subtraction, matching its documented zero-on-earlier behaviour;
* the formatted wall-clock timestamp strings attached to events are pure
  presentation and are not modelled; an emitted event is its `name` and
  `details` strings.
-/

namespace MossAgent

/-- The `Event` message produced for subscribers (name and details;
the formatted wall-clock timestamp string is presentation only). -/
structure CapturedEvent where
  name : String
  details : String
deriving DecidableEq, Repr

/-- Raw input event kinds delivered by the external input source
(`rdev::EventType`), with keys/buttons as numerals and coordinates
as rationals. -/
inductive RawEventType where
  | keyPress (key : ℕ)
  | keyRelease (key : ℕ)
  | buttonPress (button : ℕ)
  | buttonRelease (button : ℕ)
  | mouseMove (x y : ℚ)
  | wheel (dx dy : ℤ)
deriving DecidableEq, Repr

/-- A raw input event together with the instant at which the callback
observes it (the `Instant::now()` read in the `MouseMove` arm). -/
structure RawEvent where
  time : ℚ
  etype : RawEventType
deriving DecidableEq, Repr

/-- `format_event_details` from src/main.rs: renders the raw payload.
The `Debug` rendering of the external key/button enums is modelled by
the numeral. -/
def format_event_details : RawEventType → String
  | .keyPress key => s!"{key}"
  | .keyRelease key => s!"{key}"
  | .mouseMove x y => s!"{x},{y}"
  | .buttonPress button => s!"{button}"
  | .buttonRelease button => s!"{button}"
  | .wheel dx dy => s!"dx={dx},dy={dy}"

/-- The capture thread's private state: pressed keys, pressed buttons and
the last accepted mouse-move instant (src/main.rs lines 211-215). -/
structure CaptureState where
  pressedKeys : Finset ℕ
  pressedButtons : Finset ℕ
  lastMouseMoveTime : ℚ
deriving DecidableEq

/-- Initial capture state at listener start-up: empty sets, and
`last_mouse_move_time = Instant::now() - Duration::from_secs(1)`
(src/main.rs line 215), where `t0` is the start-up instant. -/
def initialCaptureState (t0 : ℚ) : CaptureState :=
  { pressedKeys := ∅, pressedButtons := ∅, lastMouseMoveTime := t0 - 1 }

/-- `mouse_move_interval` default value `0.05f64` seconds
(src/main.rs line 204). -/
def defaultMouseMoveInterval : ℚ := 5 / 100

/-- `Instant::duration_since`: elapsed time from `earlier` to `now`,
zero if `earlier` is later. -/
def durationSince (now earlier : ℚ) : ℚ := max (now - earlier) 0

/-- One invocation of the raw-input callback (src/main.rs lines 219-264):
gate on the capturing flag, then classify, deduplicate presses, throttle
moves; returns the successor state and the event to publish, if any. -/
def processEvent (capturing : Bool) (interval : ℚ) (st : CaptureState)
    (ev : RawEvent) : CaptureState × Option CapturedEvent :=
  if !capturing then (st, none)
  else
    match ev.etype with
    | .keyPress key =>
        if key ∈ st.pressedKeys then (st, none)
        else ({ st with pressedKeys := insert key st.pressedKeys },
              some ⟨"KeyPress", format_event_details (.keyPress key)⟩)
    | .keyRelease key =>
        ({ st with pressedKeys := st.pressedKeys.erase key },
         some ⟨"KeyRelease", format_event_details (.keyRelease key)⟩)
    | .buttonPress button =>
        if button ∈ st.pressedButtons then (st, none)
        else ({ st with pressedButtons := insert button st.pressedButtons },
              some ⟨"MouseButtonPress", format_event_details (.buttonPress button)⟩)
    | .buttonRelease button =>
        ({ st with pressedButtons := st.pressedButtons.erase button },
         some ⟨"MouseButtonRelease", format_event_details (.buttonRelease button)⟩)
    | .mouseMove x y =>
        if durationSince ev.time st.lastMouseMoveTime ≥ interval then
          ({ st with lastMouseMoveTime := ev.time },
           some ⟨"MouseMove", format_event_details (.mouseMove x y)⟩)
        else (st, none)
    | .wheel dx dy =>
        (st, some ⟨"MouseWheel", format_event_details (.wheel dx dy)⟩)

/-- A run of callback invocations, each with the capturing-flag value the
callback observes (the flag may be toggled between events by the control
service). Returns the final state and, per input event, the published
event (if any). -/
def processToggled (interval : ℚ) : CaptureState → List (Bool × RawEvent) →
    CaptureState × List (Option CapturedEvent)
  | st, [] => (st, [])
  | st, p :: rest =>
      let q := processEvent p.1 interval st p.2
      let r := processToggled interval q.1 rest
      (r.1, q.2 :: r.2)

/-- A run of callback invocations with capture enabled throughout. -/
def processEvents (interval : ℚ) (st : CaptureState) (evs : List RawEvent) :
    CaptureState × List (Option CapturedEvent) :=
  processToggled interval st (evs.map fun ev => (true, ev))

/-! ### Host snapshot data model (src/system_info.rs) -/

/-- `SystemInfoCore` (src/system_info.rs lines 17-27); `u64` memory is a
natural number (no overflow is involved). -/
structure SystemInfoCore where
  directx_version : String
  os_version : String
  real_os : String
  memory_mb : ℕ
  physical_model : String
  machine_signature : String
  user : String
  monitor_start_time : String
deriving DecidableEq, Repr

/-- `PciDevice` (src/system_info.rs lines 29-34); the serde-renamed
`type` field is `device_type`, as in the Rust struct. -/
structure PciDevice where
  id : String
  device_type : String
deriving DecidableEq, Repr

/-- `ProcessorInfo` (src/system_info.rs lines 36-40). -/
structure ProcessorInfo where
  cpu_model : String
  cpu_cores : ℕ
deriving DecidableEq, Repr

/-- `DriveInfo` (src/system_info.rs lines 42-45). -/
structure DriveInfo where
  serial : String
deriving DecidableEq, Repr

/-- `NetworkInfo` (src/system_info.rs lines 47-51). -/
structure NetworkInfo where
  local_ip : String
  public_ip : String
deriving DecidableEq, Repr

/-- `VideoCard` (src/system_info.rs lines 53-57). -/
structure VideoCard where
  name : String
  driver_version : String
deriving DecidableEq, Repr

/-- `Monitor` (src/system_info.rs lines 59-63). -/
structure Monitor where
  name : String
  serial : String
deriving DecidableEq, Repr

/-- `UsbDevice` (src/system_info.rs lines 65-70). -/
structure UsbDevice where
  name : String
  vendor_id : String
  product_id : String
deriving DecidableEq, Repr

/-- The `SystemInfo` host snapshot (src/system_info.rs lines 5-15). -/
structure SystemInfo where
  system_info : SystemInfoCore
  pci_devices : List PciDevice
  drives : List DriveInfo
  network_info : NetworkInfo
  video_cards : List VideoCard
  monitors : List Monitor
  usb_input_devices : List UsbDevice
  processor_info : ProcessorInfo
deriving DecidableEq, Repr

/-- Modelled from the spec: `to_formatted_string` serializes the snapshot
through the external `serde_json` pretty printer ("the full formatted
snapshot"); the serializer itself is outside the repository, so the
rendering is modelled by the derived `Repr` instance. -/
def SystemInfo.to_formatted_string (info : SystemInfo) : String :=
  reprStr info

/-- The outcomes of the thirteen inventory sub-queries that
`SystemInfo::collect` performs, in source order (src/system_info.rs
lines 74-90). Each sub-query shells out to platform utilities, so its
result is an input of the embedding: `.error` is the value produced when
its command cannot be run (`map_err(|e| e.to_string())?`). -/
structure InventoryEnv where
  directx_version : Except String String
  pci_devices : Except String (List PciDevice)
  memory_info : Except String ℕ
  physical_hardware_info : Except String String
  drive_info : Except String (List DriveInfo)
  network_info : Except String NetworkInfo
  video_cards : Except String (List VideoCard)
  monitors : Except String (List Monitor)
  usb_devices : Except String (List UsbDevice)
  processor_info : Except String ProcessorInfo
  os_info : Except String (String × String)
  machine_signature : Except String String
  user_info : Except String String

/-- `get_directx_version` (src/system_info.rs lines 118-126): runs the
`dxdiag` command, propagating a spawn failure as `Err`; the command's
output is discarded and the constant `"DirectX 12"` is returned. -/
def get_directx_version (dxdiagSpawn : Except String Unit) :
    Except String String := do
  let _ ← dxdiagSpawn
  .ok "DirectX 12"

/-- `SystemInfo::collect` (src/system_info.rs lines 73-111): every
sub-query result is unwrapped with `?`, so the first failing sub-query
aborts the whole snapshot; `now` is the `chrono::Utc::now().to_rfc3339()`
start-time string. -/
def SystemInfo.collect (env : InventoryEnv) (now : String) :
    Except String SystemInfo := do
  let directx_version ← env.directx_version
  let pci_devices ← env.pci_devices
  let memory_mb ← env.memory_info
  let physical_model ← env.physical_hardware_info
  let drives ← env.drive_info
  let network_info ← env.network_info
  let video_cards ← env.video_cards
  let monitors ← env.monitors
  let usb_devices ← env.usb_devices
  let processor_info ← env.processor_info
  let (os_version, real_os) ← env.os_info
  let machine_signature ← env.machine_signature
  let user ← env.user_info
  .ok {
    system_info := {
      directx_version := directx_version
      os_version := os_version
      real_os := real_os
      memory_mb := memory_mb
      physical_model := physical_model
      machine_signature := machine_signature
      user := user
      monitor_start_time := now }
    pci_devices := pci_devices
    drives := drives
    network_info := network_info
    video_cards := video_cards
    monitors := monitors
    usb_input_devices := usb_devices
    processor_info := processor_info }

/-- All thirteen sub-queries succeeded. -/
def InventoryEnv.allOk (env : InventoryEnv) : Bool :=
  env.directx_version.isOk && env.pci_devices.isOk && env.memory_info.isOk &&
  env.physical_hardware_info.isOk && env.drive_info.isOk &&
  env.network_info.isOk && env.video_cards.isOk && env.monitors.isOk &&
  env.usb_devices.isOk && env.processor_info.isOk && env.os_info.isOk &&
  env.machine_signature.isOk && env.user_info.isOk

/-! ### Telemetry diff (src/main.rs `compare_system_info`) -/

/-- The DirectX line of the diff (src/main.rs lines 111-116). -/
def lineDX (old new : SystemInfo) : String :=
  "DirectX version changed: " ++ old.system_info.directx_version ++
    " -> " ++ new.system_info.directx_version

/-- The OS-version line of the diff (src/main.rs lines 118-123). -/
def lineOS (old new : SystemInfo) : String :=
  "OS version changed: " ++ old.system_info.os_version ++
    " -> " ++ new.system_info.os_version

/-- The memory line of the diff (src/main.rs lines 125-130). -/
def lineMem (old new : SystemInfo) : String :=
  "Memory changed: " ++ toString old.system_info.memory_mb ++
    " MB -> " ++ toString new.system_info.memory_mb ++ " MB"

/-- The local-IP line of the diff (src/main.rs lines 132-137). -/
def lineLocalIp (old new : SystemInfo) : String :=
  "Local IP changed: " ++ old.network_info.local_ip ++
    " -> " ++ new.network_info.local_ip

/-- The public-IP line of the diff (src/main.rs lines 139-144). -/
def linePublicIp (old new : SystemInfo) : String :=
  "Public IP changed: " ++ old.network_info.public_ip ++
    " -> " ++ new.network_info.public_ip

/-- The USB-count line of the diff (src/main.rs lines 147-153). -/
def lineUsb (old new : SystemInfo) : String :=
  "USB devices count changed: " ++ toString old.usb_input_devices.length ++
    " -> " ++ toString new.usb_input_devices.length

/-- The monitor-count line of the diff (src/main.rs lines 156-162). -/
def lineMonitors (old new : SystemInfo) : String :=
  "Monitor count changed: " ++ toString old.monitors.length ++
    " -> " ++ toString new.monitors.length

/-- The video-card-count line of the diff (src/main.rs lines 165-171). -/
def lineVideo (old new : SystemInfo) : String :=
  "Video cards count changed: " ++ toString old.video_cards.length ++
    " -> " ++ toString new.video_cards.length

/-- The PCI-count line of the diff (src/main.rs lines 174-180). -/
def linePci (old new : SystemInfo) : String :=
  "PCI devices count changed: " ++ toString old.pci_devices.length ++
    " -> " ++ toString new.pci_devices.length

/-- The `changes` vector built by `compare_system_info`
(src/main.rs lines 109-180): nine sequential conditional pushes. -/
def changesList (old new : SystemInfo) : List String :=
  let changes : List String := []
  let changes := if old.system_info.directx_version ≠ new.system_info.directx_version
    then changes ++ [lineDX old new] else changes
  let changes := if old.system_info.os_version ≠ new.system_info.os_version
    then changes ++ [lineOS old new] else changes
  let changes := if old.system_info.memory_mb ≠ new.system_info.memory_mb
    then changes ++ [lineMem old new] else changes
  let changes := if old.network_info.local_ip ≠ new.network_info.local_ip
    then changes ++ [lineLocalIp old new] else changes
  let changes := if old.network_info.public_ip ≠ new.network_info.public_ip
    then changes ++ [linePublicIp old new] else changes
  let changes := if old.usb_input_devices.length ≠ new.usb_input_devices.length
    then changes ++ [lineUsb old new] else changes
  let changes := if old.monitors.length ≠ new.monitors.length
    then changes ++ [lineMonitors old new] else changes
  let changes := if old.video_cards.length ≠ new.video_cards.length
    then changes ++ [lineVideo old new] else changes
  let changes := if old.pci_devices.length ≠ new.pci_devices.length
    then changes ++ [linePci old new] else changes
  changes

/-- `compare_system_info` (src/main.rs lines 108-183): the conditional
lines joined with a newline. -/
def compare_system_info (old new : SystemInfo) : String :=
  String.intercalate "\n" (changesList old new)

/-- Agreement of two snapshots on the nine fields the diff inspects. -/
def nineEq (old new : SystemInfo) : Prop :=
  old.system_info.directx_version = new.system_info.directx_version ∧
  old.system_info.os_version = new.system_info.os_version ∧
  old.system_info.memory_mb = new.system_info.memory_mb ∧
  old.network_info.local_ip = new.network_info.local_ip ∧
  old.network_info.public_ip = new.network_info.public_ip ∧
  old.usb_input_devices.length = new.usb_input_devices.length ∧
  old.monitors.length = new.monitors.length ∧
  old.video_cards.length = new.video_cards.length ∧
  old.pci_devices.length = new.pci_devices.length

instance (old new : SystemInfo) : Decidable (nineEq old new) := by
  unfold nineEq; infer_instance

/-! ### Control service and telemetry loop (src/main.rs) -/

/-- The baseline event published by `start` (src/main.rs lines 44-48). -/
def baselineEvent (info : SystemInfo) : CapturedEvent :=
  ⟨"SystemInfo", info.to_formatted_string⟩

/-- The observable state shared between `MyCaptureService` and the
telemetry loop: the `capturing` atomic, the service's `system_info`
mutex slot (src/main.rs lines 26-30), and the monitoring task's local
`last_system_info` (src/main.rs line 299). -/
structure ServiceState where
  capturing : Bool
  system_info_slot : Option SystemInfo
  loopLast : Option SystemInfo
deriving DecidableEq

/-- State-changing operations of the service: a `start` or a telemetry
tick carries the outcome of its `SystemInfo::collect` call. -/
inductive Op where
  | start (collectRes : Except String SystemInfo)
  | stop
  | tick (collectRes : Except String SystemInfo)

/-- `start` (src/main.rs lines 34-69), `stop` (lines 71-77) and one
iteration of the monitoring loop body (lines 301-332): returns the
successor state and the event published, if any. -/
def runOp (s : ServiceState) : Op → ServiceState × Option CapturedEvent
  | .start r =>
      match r with
      | .ok info =>
          ({ s with capturing := true, system_info_slot := some info },
           some (baselineEvent info))
      | .error _ => ({ s with capturing := true }, none)
  | .stop => ({ s with capturing := false }, none)
  | .tick r =>
      if s.capturing then
        match r with
        | .ok cur =>
            let ev : Option CapturedEvent :=
              match s.loopLast with
              | some last =>
                  let changes := compare_system_info last cur
                  if changes = "" then none
                  else some ⟨"SystemInfoChange", changes⟩
              | none => none
            ({ s with loopLast := some cur }, ev)
        | .error _ => (s, none)
      else (s, none)

/-- Folding a sequence of operations through the service state. -/
def runOps (s : ServiceState) (ops : List Op) : ServiceState :=
  ops.foldl (fun st op => (runOp st op).1) s

/-- Holds for the control operations (`start`/`stop`), not for a
telemetry tick. -/
def Op.isControl : Op → Prop
  | .start _ => True
  | .stop => True
  | .tick _ => False

/-! ### Event bus (tokio broadcast channel, spec section 4.2) -/

/-- Modelled from the spec: the external broadcast channel's `send`
"never blocks the producer"; it fails with the "channel closed"
`SendError` exactly when there are zero subscribed receivers, and
otherwise delivers to all current receivers. -/
def broadcastSend (receivers : ℕ) (_ev : CapturedEvent) : Except String ℕ :=
  if receivers = 0 then .error "channel closed" else .ok receivers

/-- The callback's send-and-log handling (src/main.rs lines 276-281):
log an error only when the send failure is not the "channel closed"
(no receivers) case; returns the logged line, if any. -/
def sendAndLog (receivers : ℕ) (ev : CapturedEvent) : Option String :=
  match broadcastSend receivers ev with
  | .ok _ => none
  | .error e =>
      if "channel closed".toList <:+: e.toList then none
      else some ("[ERROR] Failed to send event: " ++ e)

/-- One full callback invocation including the publish: classification
(`processEvent`) followed by `tx.send` with its error handling; returns
the successor capture state, the event handed to the bus (if any), and
the logged error line (if any). -/
def callbackStep (receivers : ℕ) (capturing : Bool) (interval : ℚ)
    (st : CaptureState) (ev : RawEvent) :
    CaptureState × Option CapturedEvent × Option String :=
  let p := processEvent capturing interval st ev
  match p.2 with
  | some e => (p.1, some e, sendAndLog receivers e)
  | none => (p.1, none, none)

/-- An action on the event bus: a producer publishing, or the subscriber
under observation subscribing. -/
inductive BusAct where
  | publish (ev : CapturedEvent)
  | subscribe
deriving DecidableEq

/-- The events published in a trace, in order. -/
def publishedIn : List BusAct → List CapturedEvent
  | [] => []
  | .publish e :: rest => e :: publishedIn rest
  | .subscribe :: rest => publishedIn rest

/-- Modelled from the spec: a subscription "receives only events
published after subscription"; the events the observed subscriber
receives are those published after its `subscribe` action (losses from
lag aside, which only drop a prefix and cannot add earlier events). -/
def receivedBySubscriber : List BusAct → List CapturedEvent
  | [] => []
  | .subscribe :: rest => publishedIn rest
  | .publish _ :: rest => receivedBySubscriber rest

/-! ### Concrete sample values used by witnesses and counterexamples -/

/-- A concrete host snapshot. -/
def sampleInfo : SystemInfo := {
  system_info := {
    directx_version := "DirectX 12"
    os_version := "10.0.19045"
    real_os := "Microsoft Windows 10 Pro"
    memory_mb := 16004
    physical_model := "Acme Box-9 SN123"
    machine_signature := "sig-A"
    user := "host0"
    monitor_start_time := "2026-01-01T00:00:00+00:00" }
  pci_devices := [{ id := "8086-1234", device_type := "display" }]
  drives := [{ serial := "S1" }]
  network_info := { local_ip := "192.168.1.2", public_ip := "8.8.8.8" }
  video_cards := [{ name := "GPU", driver_version := "31.0.1" }]
  monitors := [{ name := "Primary Display", serial := "Unknown" }]
  usb_input_devices := []
  processor_info := { cpu_model := "CPU X", cpu_cores := 8 } }

/-- `sampleInfo` with a different memory size only. -/
def sampleInfoMem : SystemInfo :=
  { sampleInfo with
    system_info := { sampleInfo.system_info with memory_mb := 32000 } }

/-- An inventory environment in which the `dxdiag` command cannot be run
and every other sub-query succeeds. -/
def dxFailEnv : InventoryEnv := {
  directx_version := get_directx_version (.error "program not found")
  pci_devices := .ok sampleInfo.pci_devices
  memory_info := .ok 16004
  physical_hardware_info := .ok "Acme Box-9 SN123"
  drive_info := .ok sampleInfo.drives
  network_info := .ok sampleInfo.network_info
  video_cards := .ok sampleInfo.video_cards
  monitors := .ok sampleInfo.monitors
  usb_devices := .ok []
  processor_info := .ok sampleInfo.processor_info
  os_info := .ok ("10.0.19045", "Microsoft Windows 10 Pro")
  machine_signature := .ok "sig-A"
  user_info := .ok "host0" }

/-- A bus trace in which the baseline is published before the
subscription is established, and an input event follows it. -/
def cexTrace : List BusAct :=
  [.publish (baselineEvent sampleInfo), .subscribe, .publish ⟨"KeyPress", "3"⟩]

/-! ### Helper lemmas on the capture state machine -/

theorem processToggled_append (i : ℚ) (l₁ l₂ : List (Bool × RawEvent)) :
    ∀ st : CaptureState,
      processToggled i st (l₁ ++ l₂) =
        ((processToggled i (processToggled i st l₁).1 l₂).1,
         (processToggled i st l₁).2 ++ (processToggled i (processToggled i st l₁).1 l₂).2) := by
  induction l₁ with
  | nil => intro st; simp [processToggled]
  | cons p rest ih => intro st; simp [processToggled, ih]

theorem processToggled_all_off (i : ℚ) (l : List (Bool × RawEvent)) :
    ∀ st : CaptureState, (∀ p ∈ l, p.1 = false) →
      processToggled i st l = (st, List.replicate l.length none) := by
  induction l with
  | nil => intro st _; simp [processToggled]
  | cons p rest ih =>
      intro st hoff
      have hp : p.1 = false := hoff p (List.mem_cons_self p rest)
      have hr : ∀ q ∈ rest, q.1 = false := fun q hq => hoff q (List.mem_cons_of_mem p hq)
      simp [processToggled, hp, processEvent, ih _ hr, List.replicate_succ]

theorem processToggled_key_held (i : ℚ) (k : ℕ) (l : List (Bool × RawEvent)) :
    ∀ st : CaptureState, (∀ p ∈ l, p.1 = true ∧ p.2.etype = .keyPress k) →
      k ∈ st.pressedKeys →
      processToggled i st l = (st, List.replicate l.length none) := by
  induction l with
  | nil => intro st _ _; simp [processToggled]
  | cons p rest ih =>
      intro st hl hk
      obtain ⟨hp, he⟩ := hl p (List.mem_cons_self p rest)
      have hr : ∀ q ∈ rest, q.1 = true ∧ q.2.etype = .keyPress k :=
        fun q hq => hl q (List.mem_cons_of_mem p hq)
      simp [processToggled, hp, processEvent, he, hk, ih _ hr, List.replicate_succ]

theorem processToggled_button_held (i : ℚ) (b : ℕ) (l : List (Bool × RawEvent)) :
    ∀ st : CaptureState, (∀ p ∈ l, p.1 = true ∧ p.2.etype = .buttonPress b) →
      b ∈ st.pressedButtons →
      processToggled i st l = (st, List.replicate l.length none) := by
  induction l with
  | nil => intro st _ _; simp [processToggled]
  | cons p rest ih =>
      intro st hl hb
      obtain ⟨hp, he⟩ := hl p (List.mem_cons_self p rest)
      have hr : ∀ q ∈ rest, q.1 = true ∧ q.2.etype = .buttonPress b :=
        fun q hq => hl q (List.mem_cons_of_mem p hq)
      simp [processToggled, hp, processEvent, he, hb, ih _ hr, List.replicate_succ]

/-! ### Claim theorems -/

/-- C2: while capture is enabled, for every key `k` and every nonempty
sequence of key-down events for `k` with no intervening key-up (so `k`
is not yet marked pressed), exactly one "KeyPress" is emitted — by the
first event — and afterwards `k` is marked pressed; the same
press/suppress rule holds for pointer-button-down and
"MouseButtonPress". -/
theorem keydown_dedup (i : ℚ) (st : CaptureState) (k b : ℕ)
    (evs bevs : List RawEvent)
    (hk : ∀ e ∈ evs, e.etype = .keyPress k) (hne : evs ≠ [])
    (hkn : k ∉ st.pressedKeys)
    (hb : ∀ e ∈ bevs, e.etype = .buttonPress b) (hbne : bevs ≠ [])
    (hbn : b ∉ st.pressedButtons) :
    (processEvents i st evs).2 =
        some ⟨"KeyPress", format_event_details (.keyPress k)⟩ ::
          List.replicate (evs.length - 1) none ∧
      (processEvents i st evs).1 =
        { st with pressedKeys := insert k st.pressedKeys } ∧
      (processEvents i st bevs).2 =
        some ⟨"MouseButtonPress", format_event_details (.buttonPress b)⟩ ::
          List.replicate (bevs.length - 1) none ∧
      (processEvents i st bevs).1 =
        { st with pressedButtons := insert b st.pressedButtons } := by
  have key : (processEvents i st evs).2 =
        some ⟨"KeyPress", format_event_details (.keyPress k)⟩ ::
          List.replicate (evs.length - 1) none ∧
      (processEvents i st evs).1 =
        { st with pressedKeys := insert k st.pressedKeys } := by
    match evs, hne with
    | e :: rest, _ =>
        have he : e.etype = .keyPress k := hk e (List.mem_cons_self e rest)
        have hrest : ∀ p ∈ rest.map (fun ev => (true, ev)),
            p.1 = true ∧ p.2.etype = .keyPress k := by
          intro p hp
          obtain ⟨ev, hev, rfl⟩ := List.mem_map.1 hp
          exact ⟨rfl, hk ev (List.mem_cons_of_mem e hev)⟩
        have hmem : k ∈ (insert k st.pressedKeys : Finset ℕ) :=
          Finset.mem_insert_self k st.pressedKeys
        have hrun := processToggled_key_held i k
          (rest.map (fun ev => (true, ev)))
          { st with pressedKeys := insert k st.pressedKeys } hrest hmem
        simp [processEvents, processToggled, processEvent, he, hkn, hrun]
  have button : (processEvents i st bevs).2 =
        some ⟨"MouseButtonPress", format_event_details (.buttonPress b)⟩ ::
          List.replicate (bevs.length - 1) none ∧
      (processEvents i st bevs).1 =
        { st with pressedButtons := insert b st.pressedButtons } := by
    match bevs, hbne with
    | e :: rest, _ =>
        have he : e.etype = .buttonPress b := hb e (List.mem_cons_self e rest)
        have hrest : ∀ p ∈ rest.map (fun ev => (true, ev)),
            p.1 = true ∧ p.2.etype = .buttonPress b := by
          intro p hp
          obtain ⟨ev, hev, rfl⟩ := List.mem_map.1 hp
          exact ⟨rfl, hb ev (List.mem_cons_of_mem e hev)⟩
        have hmem : b ∈ (insert b st.pressedButtons : Finset ℕ) :=
          Finset.mem_insert_self b st.pressedButtons
        have hrun := processToggled_button_held i b
          (rest.map (fun ev => (true, ev)))
          { st with pressedButtons := insert b st.pressedButtons } hrest hmem
        simp [processEvents, processToggled, processEvent, he, hbn, hrun]
  exact ⟨key.1, key.2, button.1, button.2⟩

/-- Witness for C2: two key-downs of key 3 from the fresh state emit one
"KeyPress" then nothing, and one button-down of button 4 emits one
"MouseButtonPress". -/
theorem keydown_dedup_witness :
    (processEvents defaultMouseMoveInterval (initialCaptureState 0)
        [⟨0, .keyPress 3⟩, ⟨1, .keyPress 3⟩]).2 =
      some ⟨"KeyPress", format_event_details (.keyPress 3)⟩ ::
        List.replicate 1 none ∧
    (processEvents defaultMouseMoveInterval (initialCaptureState 0)
        [⟨2, .buttonPress 4⟩]).2 =
      some ⟨"MouseButtonPress", format_event_details (.buttonPress 4)⟩ ::
        List.replicate 0 none := by
  have h := keydown_dedup defaultMouseMoveInterval (initialCaptureState 0) 3 4
    [⟨0, .keyPress 3⟩, ⟨1, .keyPress 3⟩] [⟨2, .buttonPress 4⟩]
    (by decide) (by decide) (by decide) (by decide) (by decide) (by decide)
  exact ⟨h.1, h.2.2.1⟩

/-- C3: while capture is enabled, a key-up always emits exactly one
"KeyRelease" and removes the key from the pressed set, regardless of
prior press state; the same rule holds for pointer-button-up and
"MouseButtonRelease". -/
theorem keyup_always_emits (i : ℚ) (st : CaptureState) (k b : ℕ) (t u : ℚ) :
    processEvent true i st ⟨t, .keyRelease k⟩ =
      ({ st with pressedKeys := st.pressedKeys.erase k },
       some ⟨"KeyRelease", format_event_details (.keyRelease k)⟩) ∧
    processEvent true i st ⟨u, .buttonRelease b⟩ =
      ({ st with pressedButtons := st.pressedButtons.erase b },
       some ⟨"MouseButtonRelease", format_event_details (.buttonRelease b)⟩) :=
  ⟨rfl, rfl⟩

/-- C4: with the capture toggle off, a raw event is dropped with no
published event and no state mutation; consequently a run of disabled
events followed by re-enabled key-downs of a still-held key emits
nothing at all (no duplicate "KeyPress"). -/
theorem disabled_callback_inert (i : ℚ) (st : CaptureState) (ev : RawEvent)
    (evs : List (Bool × RawEvent)) (k : ℕ) (t : ℚ) (n : ℕ)
    (hoff : ∀ p ∈ evs, p.1 = false) (hk : k ∈ st.pressedKeys) :
    processEvent false i st ev = (st, none) ∧
    processToggled i st evs = (st, List.replicate evs.length none) ∧
    processToggled i st (evs ++ List.replicate n (true, ⟨t, .keyPress k⟩)) =
      (st, List.replicate (evs.length + n) none) := by
  refine ⟨rfl, processToggled_all_off i evs st hoff, ?_⟩
  have h1 := processToggled_all_off i evs st hoff
  have h2 := processToggled_key_held i k
    (List.replicate n (true, ⟨t, .keyPress k⟩)) st ?_ hk
  · rw [processToggled_append, h1, h2]
    simp [← List.replicate_add]
  · intro p hp
    rw [List.eq_of_mem_replicate hp]
    exact ⟨rfl, rfl⟩

/-- Witness for C4: with key 5 held, a disabled key-down of key 7
followed by two re-enabled key-downs of key 5 leaves the state unchanged
and emits nothing. -/
theorem disabled_callback_inert_witness :
    processToggled defaultMouseMoveInterval
        ⟨{5}, ∅, 0⟩
        ([(false, ⟨1, .keyPress 7⟩)] ++
          List.replicate 2 (true, ⟨2, .keyPress 5⟩)) =
      (⟨{5}, ∅, 0⟩, List.replicate 3 none) :=
  (disabled_callback_inert defaultMouseMoveInterval ⟨{5}, ∅, 0⟩
      ⟨1, .keyPress 7⟩ [(false, ⟨1, .keyPress 7⟩)] 5 2 2
      (by decide) (by decide)).2.2

/-- C5: while capture is enabled, a pointer move is emitted as
"MouseMove" iff the elapsed time since the last accepted move is at
least the throttle interval; on acceptance the last-accepted timestamp
becomes the event time, otherwise state is unchanged and nothing is
emitted; the default interval is 50 ms, so two moves 10 ms apart from
the initial state yield exactly the first. -/
theorem mousemove_throttle (i : ℚ) (st : CaptureState) (t x y t0 : ℚ) :
    ((processEvent true i st ⟨t, .mouseMove x y⟩).2.isSome = true ↔
        i ≤ durationSince t st.lastMouseMoveTime) ∧
    (i ≤ durationSince t st.lastMouseMoveTime →
        processEvent true i st ⟨t, .mouseMove x y⟩ =
          ({ st with lastMouseMoveTime := t },
           some ⟨"MouseMove", format_event_details (.mouseMove x y)⟩)) ∧
    (¬ i ≤ durationSince t st.lastMouseMoveTime →
        processEvent true i st ⟨t, .mouseMove x y⟩ = (st, none)) ∧
    defaultMouseMoveInterval = 5 / 100 ∧
    (processEvents defaultMouseMoveInterval (initialCaptureState t0)
        [⟨t0, .mouseMove x y⟩, ⟨t0 + 1 / 100, .mouseMove x y⟩]).2 =
      [some ⟨"MouseMove", format_event_details (.mouseMove x y)⟩, none] := by
  refine ⟨?_, ?_, ?_, rfl, ?_⟩
  · by_cases h : i ≤ durationSince t st.lastMouseMoveTime <;>
      simp [processEvent, h]
  · intro h; simp [processEvent, h]
  · intro h; simp [processEvent, h]
  · have h1 : defaultMouseMoveInterval ≤ durationSince t0 (t0 - 1) := by
      unfold durationSince defaultMouseMoveInterval
      have : t0 - (t0 - 1) = 1 := by ring
      rw [this]
      norm_num
    have h2 : ¬ defaultMouseMoveInterval ≤ durationSince (t0 + 100⁻¹) t0 := by
      unfold durationSince defaultMouseMoveInterval
      have : t0 + 100⁻¹ - t0 = 100⁻¹ := by ring
      rw [this]
      norm_num
    simp [processEvents, processToggled, processEvent, initialCaptureState,
      h1, h2]

/-- Witness for C5: with a ½-second interval, one second of elapsed time
accepts the move and updates the timestamp; 10 ms after the initial
instant the second move is dropped. -/
theorem mousemove_throttle_witness :
    processEvent true (1 / 2) ⟨∅, ∅, 0⟩ ⟨1, .mouseMove 2 3⟩ =
      (⟨∅, ∅, 1⟩,
       some ⟨"MouseMove", format_event_details (.mouseMove 2 3)⟩) ∧
    processEvent true (1 / 2) ⟨∅, ∅, 0⟩ ⟨(1 : ℚ) / 100, .mouseMove 2 3⟩ =
      (⟨∅, ∅, 0⟩, none) :=
  ⟨(mousemove_throttle (1 / 2) ⟨∅, ∅, 0⟩ 1 2 3 0).2.1 (by
      show (1 : ℚ) / 2 ≤ max (1 - 0) 0
      rw [max_eq_left (by norm_num : (0 : ℚ) ≤ 1 - 0)]
      norm_num),
   (mousemove_throttle (1 / 2) ⟨∅, ∅, 0⟩ (1 / 100) 2 3 0).2.2.1 (by
      show ¬ (1 : ℚ) / 2 ≤ max (1 / 100 - 0) 0
      rw [max_eq_left (by norm_num : (0 : ℚ) ≤ 1 / 100 - 0)]
      norm_num)⟩

/-- C10: the last-accepted-move timestamp starts one second in the past,
so with the default 50 ms throttle the very first pointer move at or
after start-up is always accepted and emitted. -/
theorem first_mousemove_accepted (t0 t x y : ℚ) (h : t0 ≤ t) :
    (initialCaptureState t0).lastMouseMoveTime = t0 - 1 ∧
    (processEvent true defaultMouseMoveInterval (initialCaptureState t0)
        ⟨t, .mouseMove x y⟩).2 =
      some ⟨"MouseMove", format_event_details (.mouseMove x y)⟩ := by
  refine ⟨rfl, ?_⟩
  have hd : defaultMouseMoveInterval ≤
      durationSince t (initialCaptureState t0).lastMouseMoveTime := by
    unfold durationSince defaultMouseMoveInterval initialCaptureState
    have h1 : (1 : ℚ) ≤ t - (t0 - 1) := by linarith
    have h2 : t - (t0 - 1) ≤ max (t - (t0 - 1)) 0 := le_max_left _ _
    linarith
  simp [processEvent, hd]

/-- Witness for C10: a move at the very instant of start-up is emitted. -/
theorem first_mousemove_accepted_witness :
    (processEvent true defaultMouseMoveInterval (initialCaptureState 0)
        ⟨0, .mouseMove 5 7⟩).2 =
      some ⟨"MouseMove", format_event_details (.mouseMove 5 7)⟩ :=
  (first_mousemove_accepted 0 0 5 7 (le_refl 0)).2

/-- C7: publishing with zero subscribers surfaces no error to the
producer and is a no-op: the capture state advances exactly as pure
classification dictates, the error log stays silent, and the state
trajectory is identical for any number of receivers (so the producer
continues processing subsequent events normally). -/
theorem publish_no_subscribers_noop (receivers : ℕ) (capturing : Bool)
    (i : ℚ) (st : CaptureState) (ev : RawEvent) :
    (callbackStep 0 capturing i st ev).1 =
        (processEvent capturing i st ev).1 ∧
      (callbackStep 0 capturing i st ev).2.1 =
        (processEvent capturing i st ev).2 ∧
      (callbackStep 0 capturing i st ev).2.2 = none ∧
      (callbackStep receivers capturing i st ev).1 =
        (callbackStep 0 capturing i st ev).1 := by
  have hlog : ∀ e : CapturedEvent, sendAndLog 0 e = none := by
    intro e
    simp [sendAndLog, broadcastSend]
  unfold callbackStep
  cases h : (processEvent capturing i st ev).2 <;> simp [h, hlog]

/-- C1 counterexample: an outcome combination in which twelve sub-queries
succeed but the `dxdiag` command cannot be run; `SystemInfo::collect`
returns `Err` rather than degrading the field and continuing. -/
theorem collect_aborts_on_subquery_failure :
    dxFailEnv.pci_devices.isOk = true ∧
    dxFailEnv.memory_info.isOk = true ∧
    SystemInfo.collect dxFailEnv "2026-01-01T00:00:00+00:00" =
      .error "program not found" := by
  refine ⟨rfl, rfl, ?_⟩
  rfl

/-- C1 amended: `SystemInfo::collect` returns `Ok` exactly when all
thirteen inventory sub-queries return `Ok`; any single failing sub-query
(for example one whose platform command cannot be run) aborts the whole
snapshot with that error. Sentinel degradation happens only inside a
sub-query, for unparseable command output, never for a failed one. -/
theorem collect_ok_iff_all_subqueries_ok (env : InventoryEnv)
    (now : String) :
    (SystemInfo.collect env now).isOk = env.allOk := by
  unfold SystemInfo.collect InventoryEnv.allOk
  rcases h1 : env.directx_version with e | a <;>
    simp only [h1, bind, Except.bind, Except.isOk, Except.toBool,
      Bool.false_and, Bool.true_and]
  rcases h2 : env.pci_devices with e | a <;>
    simp only [bind, Except.bind, Except.isOk, Except.toBool,
      Bool.false_and, Bool.true_and]
  rcases h3 : env.memory_info with e | a <;>
    simp only [bind, Except.bind, Except.isOk, Except.toBool,
      Bool.false_and, Bool.true_and]
  rcases h4 : env.physical_hardware_info with e | a <;>
    simp only [bind, Except.bind, Except.isOk, Except.toBool,
      Bool.false_and, Bool.true_and]
  rcases h5 : env.drive_info with e | a <;>
    simp only [bind, Except.bind, Except.isOk, Except.toBool,
      Bool.false_and, Bool.true_and]
  rcases h6 : env.network_info with e | a <;>
    simp only [bind, Except.bind, Except.isOk, Except.toBool,
      Bool.false_and, Bool.true_and]
  rcases h7 : env.video_cards with e | a <;>
    simp only [bind, Except.bind, Except.isOk, Except.toBool,
      Bool.false_and, Bool.true_and]
  rcases h8 : env.monitors with e | a <;>
    simp only [bind, Except.bind, Except.isOk, Except.toBool,
      Bool.false_and, Bool.true_and]
  rcases h9 : env.usb_devices with e | a <;>
    simp only [bind, Except.bind, Except.isOk, Except.toBool,
      Bool.false_and, Bool.true_and]
  rcases h10 : env.processor_info with e | a <;>
    simp only [bind, Except.bind, Except.isOk, Except.toBool,
      Bool.false_and, Bool.true_and]
  rcases h11 : env.os_info with e | a <;>
    simp only [bind, Except.bind, Except.isOk, Except.toBool,
      Bool.false_and, Bool.true_and]
  rcases h12 : env.machine_signature with e | a <;>
    simp only [bind, Except.bind, Except.isOk, Except.toBool,
      Bool.false_and, Bool.true_and]
  rcases h13 : env.user_info with e | a <;>
    simp only [bind, Except.bind, Except.isOk, Except.toBool,
      Bool.false_and, Bool.true_and]

theorem runOp_control_preserves_loopLast (s : ServiceState) (op : Op)
    (h : op.isControl) : (runOp s op).1.loopLast = s.loopLast := by
  cases op with
  | start r => cases r <;> simp [runOp]
  | stop => simp [runOp]
  | tick r => exact absurd h (by simp [Op.isControl])

theorem runOps_control_preserves_loopLast (ops : List Op) :
    ∀ s : ServiceState, (∀ o ∈ ops, o.isControl) →
      (runOps s ops).loopLast = s.loopLast := by
  induction ops with
  | nil => intro s _; rfl
  | cons op rest ih =>
      intro s h
      have hop : op.isControl := h op (List.mem_cons_self op rest)
      have hrest : ∀ o ∈ rest, o.isControl :=
        fun o ho => h o (List.mem_cons_of_mem op ho)
      calc (runOps s (op :: rest)).loopLast
          = (runOps (runOp s op).1 rest).loopLast := rfl
        _ = (runOp s op).1.loopLast := ih _ hrest
        _ = s.loopLast := runOp_control_preserves_loopLast s op hop

/-- C9: the `system_info` slot written by `start` is observably never
read: every operation's published event and its effect on `capturing`
and on the loop's `last_system_info` depend only on `capturing` and
`last_system_info`; control operations (`stop`/`start`, in any
sequence) leave the loop's prior snapshot untouched; and a published
"SystemInfoChange" always compares against the loop's own prior
snapshot. -/
theorem system_info_slot_unread (s₁ s₂ s : ServiceState) (op : Op)
    (ops : List Op) (r : Except String SystemInfo)
    (hc : s₁.capturing = s₂.capturing) (hl : s₁.loopLast = s₂.loopLast)
    (hctl : ∀ o ∈ ops, o.isControl) :
    (runOp s₁ op).2 = (runOp s₂ op).2 ∧
    (runOp s₁ op).1.capturing = (runOp s₂ op).1.capturing ∧
    (runOp s₁ op).1.loopLast = (runOp s₂ op).1.loopLast ∧
    (runOps s ops).loopLast = s.loopLast ∧
    (∀ ev, (runOp s (.tick r)).2 = some ev →
      s.capturing = true ∧ ∃ last cur, s.loopLast = some last ∧
        r = .ok cur ∧
        ev = ⟨"SystemInfoChange", compare_system_info last cur⟩) := by
  refine ⟨?_, ?_, ?_, runOps_control_preserves_loopLast ops s hctl, ?_⟩
  · cases op with
    | start r' => cases r' <;> simp [runOp]
    | stop => simp [runOp]
    | tick r' =>
        cases r' <;> cases hcap : s₂.capturing <;>
          simp [runOp, hc, hl, hcap]
  · cases op with
    | start r' => cases r' <;> simp [runOp, hc]
    | stop => simp [runOp]
    | tick r' =>
        cases r' <;> cases hcap : s₂.capturing <;>
          simp [runOp, hc, hl, hcap]
  · cases op with
    | start r' => cases r' <;> simp [runOp, hl]
    | stop => simp [runOp, hl]
    | tick r' =>
        cases r' <;> cases hcap : s₂.capturing <;>
          simp [runOp, hc, hl, hcap]
  · intro ev hev
    by_cases hcap : s.capturing = true
    · cases r with
      | error e => simp [runOp, hcap] at hev
      | ok cur =>
          cases hll : s.loopLast with
          | none => simp [runOp, hcap, hll] at hev
          | some last =>
              by_cases hch : compare_system_info last cur = ""
              · simp [runOp, hcap, hll, hch] at hev
              · refine ⟨hcap, last, cur, rfl, rfl, ?_⟩
                simp [runOp, hcap, hll, hch] at hev
                simp [← hev]
    · simp [runOp, hcap] at hev

/-- Witness for C9: with identical `capturing`/`last_system_info` but
different slots (one holding `sampleInfoMem`, one empty), a tick
publishes the same thing; and a stop-then-start run preserves the
loop's prior snapshot `sampleInfo`. -/
theorem system_info_slot_unread_witness :
    (runOp ⟨true, some sampleInfoMem, none⟩ (.tick (.ok sampleInfo))).2 =
      (runOp ⟨true, none, none⟩ (.tick (.ok sampleInfo))).2 ∧
    (runOps ⟨true, none, some sampleInfo⟩
        [.stop, .start (.ok sampleInfoMem)]).loopLast = some sampleInfo := by
  have h := system_info_slot_unread ⟨true, some sampleInfoMem, none⟩
    ⟨true, none, none⟩ ⟨true, none, some sampleInfo⟩
    (.tick (.ok sampleInfo)) [.stop, .start (.ok sampleInfoMem)]
    (.ok sampleInfo) rfl rfl (by simp [Op.isControl])
  exact ⟨h.1, h.2.2.2.1⟩

/-! ### Bus-trace lemmas for the baseline race -/

theorem publishedIn_append (l₁ l₂ : List BusAct) :
    publishedIn (l₁ ++ l₂) = publishedIn l₁ ++ publishedIn l₂ := by
  induction l₁ with
  | nil => rfl
  | cons a rest ih => cases a <;> simp [publishedIn, ih]

theorem publishedIn_no_publish (l : List BusAct)
    (h : ∀ e : CapturedEvent, BusAct.publish e ∉ l) :
    publishedIn l = [] := by
  induction l with
  | nil => rfl
  | cons a rest ih =>
      cases a with
      | publish e => exact absurd (List.mem_cons_self _ _) (h e)
      | subscribe =>
          exact ih fun e he => h e (List.mem_cons_of_mem _ he)

theorem receivedBySubscriber_skip_pre (pre : List BusAct) :
    ∀ t : List BusAct, BusAct.subscribe ∉ pre →
      receivedBySubscriber (pre ++ BusAct.subscribe :: t) = publishedIn t := by
  induction pre with
  | nil => intro t _; rfl
  | cons a rest ih =>
      intro t h
      cases a with
      | publish e =>
          have : BusAct.subscribe ∉ rest := fun hm => h (List.mem_cons_of_mem _ hm)
          simp [receivedBySubscriber, ih t this]
      | subscribe => exact absurd (List.mem_cons_self _ _) h

/-- C8 counterexample: in the execution in which the spawned baseline
publish wins the race against the subscription, the subscriber's first
received event is the later "KeyPress", not the "SystemInfo" baseline —
even though the trace does contain the start-triggered baseline publish
followed by the subscription. -/
theorem baseline_first_counterexample :
    BusAct.subscribe ∈ cexTrace ∧
    BusAct.publish (baselineEvent sampleInfo) ∈ cexTrace ∧
    (receivedBySubscriber cexTrace).head? = some ⟨"KeyPress", "3"⟩ ∧
    (⟨"KeyPress", "3"⟩ : CapturedEvent) ≠ baselineEvent sampleInfo := by
  refine ⟨?_, ?_, rfl, ?_⟩
  · simp [cexTrace]
  · simp [cexTrace]
  · intro h
    exact absurd (congrArg CapturedEvent.name h) (by decide)

/-- C8 amended: `start` with a successful collect publishes the one-shot
"SystemInfo" baseline; and whenever the subscription is established
before that baseline publish, with no other event published in between,
the first event the subscriber receives is the baseline. -/
theorem baseline_first_amended (s : ServiceState) (info : SystemInfo)
    (pre mid post : List BusAct)
    (hpre : BusAct.subscribe ∉ pre)
    (hmid : ∀ e : CapturedEvent, BusAct.publish e ∉ mid) :
    (runOp s (.start (.ok info))).2 = some (baselineEvent info) ∧
    (receivedBySubscriber
        (pre ++ BusAct.subscribe ::
          (mid ++ BusAct.publish (baselineEvent info) :: post))).head? =
      some (baselineEvent info) := by
  refine ⟨rfl, ?_⟩
  rw [receivedBySubscriber_skip_pre pre _ hpre, publishedIn_append,
    publishedIn_no_publish mid hmid]
  rfl

/-- Witness for C8's amended theorem: a trace with one earlier unrelated
publish, the subscription, then the baseline. -/
theorem baseline_first_amended_witness :
    (receivedBySubscriber
        ([BusAct.publish ⟨"KeyPress", "1"⟩] ++ BusAct.subscribe ::
          ([] ++ BusAct.publish (baselineEvent sampleInfo) ::
            [BusAct.publish ⟨"KeyRelease", "1"⟩]))).head? =
      some (baselineEvent sampleInfo) :=
  (baseline_first_amended ⟨false, none, none⟩ sampleInfo
    [BusAct.publish ⟨"KeyPress", "1"⟩] [] [BusAct.publish ⟨"KeyRelease", "1"⟩]
    (by decide) (by intro e he; cases he)).2

/-! ### String and diff-list lemmas for the telemetry diff -/

theorem append_length_ne_zero (a b : String) (h : a.length ≠ 0) :
    (a ++ b).length ≠ 0 := by
  rw [String.length_append]
  omega

theorem intercalate_go_length (s : String) (xs : List String) :
    ∀ acc : String, acc.length ≤ (String.intercalate.go acc s xs).length := by
  induction xs with
  | nil => intro acc; exact le_refl _
  | cons a as ih =>
      intro acc
      calc acc.length ≤ (acc ++ s ++ a).length := by
            rw [String.length_append, String.length_append]; omega
        _ ≤ (String.intercalate.go (acc ++ s ++ a) s as).length := ih _

theorem intercalate_cons_ne_empty (x : String) (xs : List String)
    (hx : x.length ≠ 0) : String.intercalate "\n" (x :: xs) ≠ "" := by
  intro h
  have hgo : x.length ≤ (String.intercalate.go x "\n" xs).length :=
    intercalate_go_length "\n" xs x
  have hx2 : String.intercalate.go x "\n" xs = "" := h
  rw [hx2] at hgo
  have h0 : ("" : String).length = 0 := rfl
  omega

theorem push_if (c : Prop) [Decidable c] (l : List String) (x : String) :
    (if c then l ++ [x] else l) = l ++ (if c then [x] else []) := by
  split <;> simp

theorem changesList_eq (old new : SystemInfo) :
    changesList old new =
      (if old.system_info.directx_version ≠ new.system_info.directx_version
        then [lineDX old new] else []) ++
      (if old.system_info.os_version ≠ new.system_info.os_version
        then [lineOS old new] else []) ++
      (if old.system_info.memory_mb ≠ new.system_info.memory_mb
        then [lineMem old new] else []) ++
      (if old.network_info.local_ip ≠ new.network_info.local_ip
        then [lineLocalIp old new] else []) ++
      (if old.network_info.public_ip ≠ new.network_info.public_ip
        then [linePublicIp old new] else []) ++
      (if old.usb_input_devices.length ≠ new.usb_input_devices.length
        then [lineUsb old new] else []) ++
      (if old.monitors.length ≠ new.monitors.length
        then [lineMonitors old new] else []) ++
      (if old.video_cards.length ≠ new.video_cards.length
        then [lineVideo old new] else []) ++
      (if old.pci_devices.length ≠ new.pci_devices.length
        then [linePci old new] else []) := by
  unfold changesList
  simp only [push_if]
  simp [List.append_assoc]

theorem changesList_eq_nil_iff (old new : SystemInfo) :
    changesList old new = [] ↔ nineEq old new := by
  rw [changesList_eq]
  simp only [List.append_eq_nil, ite_eq_right_iff, List.cons_ne_nil,
    imp_false, not_not]
  unfold nineEq
  tauto

theorem mem_ite_singleton {c : Prop} [Decidable c] {s x : String}
    (h : s ∈ (if c then [x] else [])) : s = x := by
  split at h
  · exact List.mem_singleton.1 h
  · exact absurd h (List.not_mem_nil s)

theorem changesList_mem_length_ne_zero (old new : SystemInfo) :
    ∀ s ∈ changesList old new, s.length ≠ 0 := by
  intro s hs
  rw [changesList_eq] at hs
  simp only [List.mem_append] at hs
  rcases hs with ((((((((h|h)|h)|h)|h)|h)|h)|h)|h)
  · rw [mem_ite_singleton h]
    unfold lineDX
    repeat apply append_length_ne_zero
    decide
  · rw [mem_ite_singleton h]
    unfold lineOS
    repeat apply append_length_ne_zero
    decide
  · rw [mem_ite_singleton h]
    unfold lineMem
    repeat apply append_length_ne_zero
    decide
  · rw [mem_ite_singleton h]
    unfold lineLocalIp
    repeat apply append_length_ne_zero
    decide
  · rw [mem_ite_singleton h]
    unfold linePublicIp
    repeat apply append_length_ne_zero
    decide
  · rw [mem_ite_singleton h]
    unfold lineUsb
    repeat apply append_length_ne_zero
    decide
  · rw [mem_ite_singleton h]
    unfold lineMonitors
    repeat apply append_length_ne_zero
    decide
  · rw [mem_ite_singleton h]
    unfold lineVideo
    repeat apply append_length_ne_zero
    decide
  · rw [mem_ite_singleton h]
    unfold linePci
    repeat apply append_length_ne_zero
    decide

theorem compare_eq_empty_iff (old new : SystemInfo) :
    compare_system_info old new = "" ↔ nineEq old new := by
  rw [← changesList_eq_nil_iff]
  constructor
  · intro h
    cases hcl : changesList old new with
    | nil => rfl
    | cons x xs =>
        exfalso
        have hx : x.length ≠ 0 :=
          changesList_mem_length_ne_zero old new x
            (by rw [hcl]; exact List.mem_cons_self x xs)
        have h2 : String.intercalate "\n" (x :: xs) = "" := by
          rw [← hcl]
          exact h
        exact intercalate_cons_ne_empty x xs hx h2
  · intro h
    unfold compare_system_info
    rw [h]
    rfl

theorem runOp_tick_some (s : ServiceState) (r : Except String SystemInfo)
    (ev : CapturedEvent) (hev : (runOp s (.tick r)).2 = some ev) :
    s.capturing = true ∧ ∃ last cur, s.loopLast = some last ∧
      r = .ok cur ∧ compare_system_info last cur ≠ "" ∧
      ev = ⟨"SystemInfoChange", compare_system_info last cur⟩ := by
  by_cases hcap : s.capturing = true
  · cases r with
    | error e => simp [runOp, hcap] at hev
    | ok cur =>
        cases hll : s.loopLast with
        | none => simp [runOp, hcap, hll] at hev
        | some last =>
            by_cases hch : compare_system_info last cur = ""
            · simp [runOp, hcap, hll, hch] at hev
            · refine ⟨hcap, last, cur, rfl, rfl, hch, ?_⟩
              simp [runOp, hcap, hll, hch] at hev
              simp [← hev]
  · simp [runOp, hcap] at hev

/-- C6: the telemetry diff is exactly the nine listed field comparisons,
in order, each rendered as its "... changed: old -> new" line and only
when the field differs; the published string is the lines joined with a
newline; it is empty iff the two snapshots agree on all nine fields;
and a tick publishes a "SystemInfoChange" carrying that string only when
a prior snapshot exists and at least one of the nine fields differs —
otherwise nothing is published. -/
theorem telemetry_diff_nine_fields (old new : SystemInfo)
    (s : ServiceState) (r : Except String SystemInfo) :
    changesList old new =
        (if old.system_info.directx_version ≠ new.system_info.directx_version
          then [lineDX old new] else []) ++
        (if old.system_info.os_version ≠ new.system_info.os_version
          then [lineOS old new] else []) ++
        (if old.system_info.memory_mb ≠ new.system_info.memory_mb
          then [lineMem old new] else []) ++
        (if old.network_info.local_ip ≠ new.network_info.local_ip
          then [lineLocalIp old new] else []) ++
        (if old.network_info.public_ip ≠ new.network_info.public_ip
          then [linePublicIp old new] else []) ++
        (if old.usb_input_devices.length ≠ new.usb_input_devices.length
          then [lineUsb old new] else []) ++
        (if old.monitors.length ≠ new.monitors.length
          then [lineMonitors old new] else []) ++
        (if old.video_cards.length ≠ new.video_cards.length
          then [lineVideo old new] else []) ++
        (if old.pci_devices.length ≠ new.pci_devices.length
          then [linePci old new] else []) ∧
      compare_system_info old new =
        String.intercalate "\n" (changesList old new) ∧
      (compare_system_info old new = "" ↔ nineEq old new) ∧
      (∀ ev, (runOp s (.tick r)).2 = some ev →
        ∃ last cur, s.loopLast = some last ∧ r = .ok cur ∧
          ¬ nineEq last cur ∧
          ev = ⟨"SystemInfoChange", compare_system_info last cur⟩) ∧
      (s.loopLast = none → (runOp s (.tick r)).2 = none) ∧
      (∀ last cur, s.loopLast = some last → r = .ok cur →
        nineEq last cur → (runOp s (.tick r)).2 = none) := by
  refine ⟨changesList_eq old new, rfl, compare_eq_empty_iff old new,
    ?_, ?_, ?_⟩
  · intro ev hev
    obtain ⟨hcap, last, cur, hll, hr, hch, hev'⟩ :=
      runOp_tick_some s r ev hev
    exact ⟨last, cur, hll, hr,
      fun hn => hch ((compare_eq_empty_iff last cur).2 hn), hev'⟩
  · intro hll
    by_cases hcap : s.capturing = true <;>
      cases r <;> simp [runOp, hcap, hll]
  · intro last cur hll hr hnine
    have hch : compare_system_info last cur = "" :=
      (compare_eq_empty_iff last cur).2 hnine
    subst hr
    by_cases hcap : s.capturing = true <;>
      simp [runOp, hcap, hll, hch]

/-- Witness for C6: a tick whose fresh snapshot agrees with the loop's
prior snapshot on all nine fields publishes nothing. -/
theorem telemetry_diff_nine_fields_witness :
    (runOp ⟨true, none, some sampleInfo⟩ (.tick (.ok sampleInfo))).2 =
      none :=
  (telemetry_diff_nine_fields sampleInfo sampleInfo
      ⟨true, none, some sampleInfo⟩ (.ok sampleInfo)).2.2.2.2.2
    sampleInfo sampleInfo rfl rfl
    ⟨rfl, rfl, rfl, rfl, rfl, rfl, rfl, rfl, rfl⟩

end MossAgent
